import Mathlib

/-!
Shallow embedding of `src/vips.h`: a thin C shim binding fixed keyword-argument
combinations of a wrapped image-processing library (libvips) into fixed-arity
C functions.  Each shim function makes a single call into the wrapped library,
passing a NULL-terminated list of optional keyword arguments; we embed that
list as a `List VOpt`.  The wrapped library itself is not part of the
repository, so it is modelled as an abstract record `VipsLib` of response
functions; each shim is a Lean function parameterised by such a record.
Every shim also returns the trace of heap events and library calls it
performs, so that theorems can speak about exactly which options were passed
and about the lifetime of the one transient allocation (`vips_flatten_0`).
C `double` parameters are embedded as rationals, C `int` and enum parameters
as integers, opaque handles and bytes as naturals.
-/

namespace VipsShim

/-- A value passed as an optional keyword argument to a wrapped-library call:
an integer (C `int`, `gboolean` or enum), a C `double`, an interpolator
handle, or the contents of a `VipsArrayDouble` (the shim passes a pointer;
the callee reads the array through it, so the embedding records the
dereferenced contents at call time). -/
inductive VVal where
  | i (n : Int)
  | d (q : ℚ)
  | interp (h : Nat)
  | arrD (xs : List ℚ)
  deriving DecidableEq

/-- One optional keyword argument: its name and its value. -/
abbrev VOpt := String × VVal

/-- An observable event performed by a shim function: allocation of a
transient `VipsArea` (with its id and contents), a call into the wrapped
library (with its name and the option list passed), or an unref of a
`VipsArea`. -/
inductive Event where
  | allocArea (id : Nat) (contents : List ℚ)
  | call (fn : String) (opts : List VOpt)
  | unrefArea (id : Nat)
  deriving DecidableEq

/-- `true` exactly on wrapped-library call events. -/
def Event.isCall : Event → Bool
  | .call _ _ => true
  | _ => false

/-- The heap of live `VipsArea` double-arrays: a fresh-id counter and the
association of live ids to contents (every array in this shim has reference
count one, so liveness is just membership in the store). -/
structure Heap where
  next : Nat
  store : List (Nat × List ℚ)
  deriving DecidableEq

/-- `vips_array_double_newv(n, ...)`: allocates a fresh double-array whose
length is the `int` count `n` and whose elements are the first `n` variadic
arguments; returns the new id and the updated heap. -/
def vips_array_double_newv (h : Heap) (n : Int) (args : List ℚ) : Nat × Heap :=
  (h.next, ⟨h.next + 1, (h.next, args.take n.toNat) :: h.store⟩)

/-- `vips_area_unref`: drops the (single) reference to an area, freeing it. -/
def vips_area_unref (h : Heap) (id : Nat) : Heap :=
  ⟨h.next, h.store.filter (fun p => p.1 ≠ id)⟩

/-- The contents an area pointer dereferences to in a heap. -/
def areaContents (h : Heap) (id : Nat) : List ℚ :=
  (((h.store.find? (fun p => p.1 == id)).map Prod.snd)).getD []

/-- C conversion of a `double` to `int`: truncation toward zero (used at the
call `vips_array_double_newv(1.0, 255.0)`, whose first argument is a `double`
literal implicitly converted to the declared `int` count parameter). -/
def cTrunc (q : ℚ) : Int := q.num.tdiv (q.den : Int)

/-- The `VIPS_ACCESS_SEQUENTIAL` member of the wrapped library's access
enumeration (`VIPS_ACCESS_RANDOM = 0`, `VIPS_ACCESS_SEQUENTIAL = 1`). -/
def VIPS_ACCESS_SEQUENTIAL : Int := 1

/-- glib's `TRUE`. -/
def TRUE : Int := 1

/-- Abstract model of the wrapped library: one response function per
entry point the shim calls.  Each takes the positional arguments and the
option list the shim passes and yields the integer status code together
with what it writes through the output parameter (`none` = the output
parameter is left unwritten).  `interpretationOf` and `dims` model the
library-owned metadata of an image handle (its interpretation/colorspace
and its pixel dimensions), used to state relational claims. -/
structure VipsLib where
  init : String → Int
  gaussblur : Nat → ℚ → List VOpt → Int × Option Nat
  affine : Nat → ℚ → ℚ → ℚ → ℚ → List VOpt → Int × Option Nat
  jpegload_buffer : List Nat → Nat → List VOpt → Int × Option Nat
  magickload : String → List VOpt → Int × Option Nat
  pngload_buffer : List Nat → Nat → List VOpt → Int × Option Nat
  shrink : Nat → ℚ → ℚ → List VOpt → Int × Option Nat
  copy : Nat → List VOpt → Int × Option Nat
  flatten : Nat → List VOpt → Int × Option Nat
  embed : Nat → Int → Int → Int → Int → List VOpt → Int × Option Nat
  colourspace : Nat → Int → List VOpt → Int × Option Nat
  extract_area : Nat → Int → Int → Int → Int → List VOpt → Int × Option Nat
  jpegsave_buffer : Nat → List VOpt → Int × Option (List Nat × Nat)
  interpretationOf : Nat → Int
  dims : Nat → Nat × Nat

/-- Result of a shim operation that produces an image handle: the returned
status code, what was written through the `VipsImage **out` parameter, and
the trace of events the shim performed. -/
structure ImgResult where
  status : Int
  out : Option Nat
  trace : List Event
  deriving DecidableEq

/-- Result of the encode-to-buffer shim operation: the returned status code,
what was written through the `void **buf` / `size_t *len` output parameters,
and the trace of events. -/
structure BufResult where
  status : Int
  out : Option (List Nat × Nat)
  trace : List Event
  deriving DecidableEq

/-- `vips_initialize()`: `return vips_init("govips");`. -/
def vipsInitialize (lib : VipsLib) : Int × List Event :=
  (lib.init "govips", [Event.call "vips_init" []])

/-- `vips_gaussian_blur`: `return vips_gaussblur(in, out, sigma, NULL);`. -/
def vips_gaussian_blur (lib : VipsLib) (img : Nat) (sigma : ℚ) : ImgResult :=
  let r := lib.gaussblur img sigma []
  ⟨r.1, r.2, [Event.call "vips_gaussblur" []]⟩

/-- `vips_affine_interpolator`:
`return vips_affine(in, out, a, b, c, d, "interpolate", interpolator, NULL);`. -/
def vips_affine_interpolator (lib : VipsLib) (img : Nat) (a b c d : ℚ)
    (interpolator : Nat) : ImgResult :=
  let opts : List VOpt := [("interpolate", VVal.interp interpolator)]
  let r := lib.affine img a b c d opts
  ⟨r.1, r.2, [Event.call "vips_affine" opts]⟩

/-- `vips_jpegload_buffer_seq`:
`return vips_jpegload_buffer(buf, len, out, "access", VIPS_ACCESS_SEQUENTIAL, NULL);`. -/
def vips_jpegload_buffer_seq (lib : VipsLib) (buf : List Nat) (len : Nat) :
    ImgResult :=
  let opts : List VOpt := [("access", VVal.i VIPS_ACCESS_SEQUENTIAL)]
  let r := lib.jpegload_buffer buf len opts
  ⟨r.1, r.2, [Event.call "vips_jpegload_buffer" opts]⟩

/-- `vips_magickload_`: `return vips_magickload(filename, out, NULL);`. -/
def vips_magickload_ (lib : VipsLib) (filename : String) : ImgResult :=
  let r := lib.magickload filename []
  ⟨r.1, r.2, [Event.call "vips_magickload" []]⟩

/-- `vips_jpegload_buffer_shrink`:
`return vips_jpegload_buffer(buf, len, out, "shrink", shrink, NULL);`. -/
def vips_jpegload_buffer_shrink (lib : VipsLib) (buf : List Nat) (len : Nat)
    (shrink : Int) : ImgResult :=
  let opts : List VOpt := [("shrink", VVal.i shrink)]
  let r := lib.jpegload_buffer buf len opts
  ⟨r.1, r.2, [Event.call "vips_jpegload_buffer" opts]⟩

/-- `vips_pngload_buffer_seq`:
`return vips_pngload_buffer(buf, len, out, "access", VIPS_ACCESS_SEQUENTIAL, NULL);`. -/
def vips_pngload_buffer_seq (lib : VipsLib) (buf : List Nat) (len : Nat) :
    ImgResult :=
  let opts : List VOpt := [("access", VVal.i VIPS_ACCESS_SEQUENTIAL)]
  let r := lib.pngload_buffer buf len opts
  ⟨r.1, r.2, [Event.call "vips_pngload_buffer" opts]⟩

/-- `vips_shrink_0`: `return vips_shrink(in, out, xshrink, yshrink, NULL);`. -/
def vips_shrink_0 (lib : VipsLib) (img : Nat) (xshrink yshrink : ℚ) :
    ImgResult :=
  let r := lib.shrink img xshrink yshrink []
  ⟨r.1, r.2, [Event.call "vips_shrink" []]⟩

/-- `vips_copy_0`: `return vips_copy(in, out, NULL);`. -/
def vips_copy_0 (lib : VipsLib) (img : Nat) : ImgResult :=
  let r := lib.copy img []
  ⟨r.1, r.2, [Event.call "vips_copy" []]⟩

/-- `vips_flatten_0`:
```
VipsArrayDouble *white = vips_array_double_newv(1.0, 255.0);
int flatten_value = vips_flatten(in, out, "background", white, NULL);
vips_area_unref((VipsArea *)white);
return flatten_value;
```
The `1.0` is implicitly converted to the declared `int` count parameter of
`vips_array_double_newv`, so the array has one element, `255.0`. -/
def vips_flatten_0 (lib : VipsLib) (img : Nat) (h : Heap) : ImgResult × Heap :=
  let aw := vips_array_double_newv h (cTrunc 1) [255]
  let white := aw.1
  let h1 := aw.2
  let opts : List VOpt := [("background", VVal.arrD (areaContents h1 white))]
  let r := lib.flatten img opts
  let flatten_value := r.1
  let h2 := vips_area_unref h1 white
  (⟨flatten_value, r.2,
    [Event.allocArea white (areaContents h1 white),
     Event.call "vips_flatten" opts,
     Event.unrefArea white]⟩, h2)

/-- `vips_embed_extend`:
`return vips_embed(in, out, left, top, width, height, "extend", extend, NULL);`. -/
def vips_embed_extend (lib : VipsLib) (img : Nat)
    (left top width height extend : Int) : ImgResult :=
  let opts : List VOpt := [("extend", VVal.i extend)]
  let r := lib.embed img left top width height opts
  ⟨r.1, r.2, [Event.call "vips_embed" opts]⟩

/-- `vips_colourspace_0`: `return vips_colourspace(in, out, space, NULL);`. -/
def vips_colourspace_0 (lib : VipsLib) (img : Nat) (space : Int) : ImgResult :=
  let r := lib.colourspace img space []
  ⟨r.1, r.2, [Event.call "vips_colourspace" []]⟩

/-- `vips_extract_area_0`:
`return vips_extract_area(in, out, left, top, width, height, NULL);`. -/
def vips_extract_area_0 (lib : VipsLib) (img : Nat)
    (left top width height : Int) : ImgResult :=
  let r := lib.extract_area img left top width height []
  ⟨r.1, r.2, [Event.call "vips_extract_area" []]⟩

/-- `vips_jpegsave_custom`:
`return vips_jpegsave_buffer(in, buf, len, "strip", strip, "Q", quality,
"optimize_coding", TRUE, "interlace", interlace, NULL);`. -/
def vips_jpegsave_custom (lib : VipsLib) (img : Nat)
    (strip quality interlace : Int) : BufResult :=
  let opts : List VOpt :=
    [("strip", VVal.i strip), ("Q", VVal.i quality),
     ("optimize_coding", VVal.i TRUE), ("interlace", VVal.i interlace)]
  let r := lib.jpegsave_buffer img opts
  ⟨r.1, r.2, [Event.call "vips_jpegsave_buffer" opts]⟩

/-- The contents of the `"background"` option of the first wrapped-library
call in a shim result's trace, when that option is a double-array. -/
def flattenBackground (r : ImgResult) : Option (List ℚ) :=
  match r.trace.find? Event.isCall with
  | some (Event.call _ opts) =>
      match opts.find? (fun o => o.1 == "background") with
      | some (_, VVal.arrD xs) => some xs
      | _ => none
  | _ => none

/-- A concrete model of the wrapped library in which every call fails with
status `-1` and leaves every output parameter unwritten (the libvips
convention on failure). -/
def failLib : VipsLib where
  init := fun _ => -1
  gaussblur := fun _ _ _ => (-1, none)
  affine := fun _ _ _ _ _ _ => (-1, none)
  jpegload_buffer := fun _ _ _ => (-1, none)
  magickload := fun _ _ => (-1, none)
  pngload_buffer := fun _ _ _ => (-1, none)
  shrink := fun _ _ _ _ => (-1, none)
  copy := fun _ _ => (-1, none)
  flatten := fun _ _ => (-1, none)
  embed := fun _ _ _ _ _ _ => (-1, none)
  colourspace := fun _ _ _ => (-1, none)
  extract_area := fun _ _ _ _ _ _ => (-1, none)
  jpegsave_buffer := fun _ _ => (-1, none)
  interpretationOf := fun _ => 0
  dims := fun i => (i, i)

/-- A concrete model of the wrapped library in which every call succeeds and
every unary image operation behaves as the identity on its input handle. -/
def pureLib : VipsLib where
  init := fun _ => 0
  gaussblur := fun i _ _ => (0, some i)
  affine := fun i _ _ _ _ _ => (0, some i)
  jpegload_buffer := fun _ _ _ => (0, some 0)
  magickload := fun _ _ => (0, some 0)
  pngload_buffer := fun _ _ _ => (0, some 0)
  shrink := fun i _ _ _ => (0, some i)
  copy := fun i _ => (0, some i)
  flatten := fun i _ => (0, some i)
  embed := fun i _ _ _ _ _ => (0, some i)
  colourspace := fun i _ _ => (0, some i)
  extract_area := fun i _ _ _ _ _ => (0, some i)
  jpegsave_buffer := fun _ _ => (0, some ([], 0))
  interpretationOf := fun _ => 0
  dims := fun i => (i, i)

/-- A concrete model of the wrapped library tracking image dimensions:
handle `n` denotes an `n` by `n` image; JPEG decode of a buffer yields an
8 by 8 image, or a 4 by 4 image when decoded with shrink-on-load factor 2;
the shrink operation halves the handle. -/
def dimLib : VipsLib where
  init := fun _ => 0
  gaussblur := fun i _ _ => (0, some i)
  affine := fun i _ _ _ _ _ => (0, some i)
  jpegload_buffer := fun _ _ opts =>
    if opts = [("shrink", VVal.i 2)] then (0, some 4) else (0, some 8)
  magickload := fun _ _ => (0, some 0)
  pngload_buffer := fun _ _ _ => (0, some 8)
  shrink := fun i _ _ _ => (0, some (i / 2))
  copy := fun i _ => (0, some i)
  flatten := fun i _ => (0, some i)
  embed := fun i _ _ _ _ _ => (0, some i)
  colourspace := fun i _ _ => (0, some i)
  extract_area := fun i _ _ _ _ _ => (0, some i)
  jpegsave_buffer := fun _ _ => (0, some ([], 0))
  interpretationOf := fun _ => 0
  dims := fun i => (i, i)

/-- The transient array allocated by `vips_flatten_0` dereferences to the
single white value `255.0`: `vips_array_double_newv(1.0, 255.0)` converts
the `double` literal `1.0` to the `int` element count `1`. -/
theorem flatten_background_eval (h : Heap) :
    areaContents (vips_array_double_newv h (cTrunc 1) [255]).2
      (vips_array_double_newv h (cTrunc 1) [255]).1 = [255] := by
  simp [areaContents, vips_array_double_newv, cTrunc]

/-- C1 counterexample: the claim that `vips_flatten_0` passes a two-element
background array is false.  At a concrete input (the identity library model,
image handle 0, empty heap) the background option array it constructs does
not have two elements. -/
theorem c1_flatten_background_not_two :
    ¬ ((flattenBackground (vips_flatten_0 pureLib 0 ⟨0, []⟩).1).map List.length
        = some 2) := by
  decide

/-- C1 (amended): for every library model, input image and heap,
`vips_flatten_0` passes to the wrapped library a background color fixed to a
single white value: the option array it constructs has exactly one element,
`255.0` (the `double` argument `1.0` of `vips_array_double_newv` is
implicitly converted to the `int` element count `1`). -/
theorem c1_flatten_background_single_white (lib : VipsLib) (img : Nat)
    (h : Heap) :
    flattenBackground (vips_flatten_0 lib img h).1 = some [255] ∧
    (flattenBackground (vips_flatten_0 lib img h).1).map List.length
      = some 1 := by
  constructor
  · simp [flattenBackground, vips_flatten_0, Event.isCall, flatten_background_eval h]
  · simp [flattenBackground, vips_flatten_0, Event.isCall, flatten_background_eval h]

/-- C2: for every library model (so for every outcome of the underlying
call, success or failure), every input image and every well-formed heap,
`vips_flatten_0` allocates the transient background array immediately
before the single wrapped-library call, releases it unconditionally right
after the call returns within the same frame, and the heap of live areas
after the operation is exactly the heap before it, so the array is not
reachable after the operation returns. -/
theorem c2_flatten_transient_array_scoped (lib : VipsLib) (img : Nat)
    (h : Heap) (hwf : ∀ p ∈ h.store, p.1 < h.next) :
    (vips_flatten_0 lib img h).2.store = h.store ∧
    (vips_flatten_0 lib img h).1.trace =
      [Event.allocArea h.next [255],
       Event.call "vips_flatten" [("background", VVal.arrD [255])],
       Event.unrefArea h.next] := by
  have hfe : h.store.filter (fun p => p.1 ≠ h.next) = h.store :=
    List.filter_eq_self.mpr
      (fun p hp => by simpa using Nat.ne_of_lt (hwf p hp))
  constructor
  · show (vips_area_unref _ _).store = h.store
    simp only [vips_area_unref, vips_array_double_newv]
    rw [List.filter_cons_of_neg (by simp)]
    exact hfe
  · show [Event.allocArea _ _, _, _] = _
    rw [flatten_background_eval h]
    rfl

/-- C2 witness: instantiation at the always-failing library model, image
handle 3 and the empty heap: the store is unchanged (empty) and the trace is
allocate, call, release. -/
theorem c2_flatten_witness :
    (vips_flatten_0 failLib 3 ⟨0, []⟩).2.store = [] ∧
    (vips_flatten_0 failLib 3 ⟨0, []⟩).1.trace =
      [Event.allocArea 0 [255],
       Event.call "vips_flatten" [("background", VVal.arrD [255])],
       Event.unrefArea 0] :=
  c2_flatten_transient_array_scoped failLib 3 ⟨0, []⟩ (by simp)

/-- C10: the initialization operation takes no parameter beyond the library
itself, registers the wrapped library's runtime context under the fixed
instance name "govips", and returns the library's initialization status
code unchanged. -/
theorem c10_init_registers_govips (lib : VipsLib) :
    (vipsInitialize lib).1 = lib.init "govips" ∧
    (vipsInitialize lib).2 = [Event.call "vips_init" []] :=
  ⟨rfl, rfl⟩

/-- C5: both buffer-based decode operations pass exactly one option to the
wrapped library's decoder, the forced sequential-access hint, for every
input buffer, and return that call's status unchanged. -/
theorem c5_sequential_access_forced (lib : VipsLib) (buf : List Nat)
    (len : Nat) :
    (vips_jpegload_buffer_seq lib buf len).trace
      = [Event.call "vips_jpegload_buffer"
          [("access", VVal.i VIPS_ACCESS_SEQUENTIAL)]] ∧
    (vips_pngload_buffer_seq lib buf len).trace
      = [Event.call "vips_pngload_buffer"
          [("access", VVal.i VIPS_ACCESS_SEQUENTIAL)]] ∧
    (vips_jpegload_buffer_seq lib buf len).status
      = (lib.jpegload_buffer buf len
          [("access", VVal.i VIPS_ACCESS_SEQUENTIAL)]).1 ∧
    (vips_pngload_buffer_seq lib buf len).status
      = (lib.pngload_buffer buf len
          [("access", VVal.i VIPS_ACCESS_SEQUENTIAL)]).1 :=
  ⟨rfl, rfl, rfl, rfl⟩

/-- C6: for every input image and all values of `strip`, `quality` and
`interlace`, the JPEG encode shim passes exactly the four options
`strip`, `Q`, `optimize_coding` and `interlace`: the first, second and
fourth forward the caller's arguments unchanged, and `optimize_coding` is
forced to `TRUE` regardless of the caller's arguments; status and outputs
are those of that one call. -/
theorem c6_jpegsave_forwards_and_forces (lib : VipsLib) (img : Nat)
    (strip quality interlace : Int) :
    (vips_jpegsave_custom lib img strip quality interlace).trace
      = [Event.call "vips_jpegsave_buffer"
          [("strip", VVal.i strip), ("Q", VVal.i quality),
           ("optimize_coding", VVal.i TRUE), ("interlace", VVal.i interlace)]] ∧
    (vips_jpegsave_custom lib img strip quality interlace).status
      = (lib.jpegsave_buffer img
          [("strip", VVal.i strip), ("Q", VVal.i quality),
           ("optimize_coding", VVal.i TRUE),
           ("interlace", VVal.i interlace)]).1 ∧
    (vips_jpegsave_custom lib img strip quality interlace).out
      = (lib.jpegsave_buffer img
          [("strip", VVal.i strip), ("Q", VVal.i quality),
           ("optimize_coding", VVal.i TRUE),
           ("interlace", VVal.i interlace)]).2 :=
  ⟨rfl, rfl, rfl⟩

/-- C9: the JPEG decode-with-shrink operation passes exactly one option,
the shrink-on-load factor, for every input buffer and factor; in
particular its option list carries no "access" entry, unlike the
sequential buffer-decode operation on the same underlying decoder. -/
theorem c9_shrink_load_single_option (lib : VipsLib) (buf : List Nat)
    (len : Nat) (n : Int) :
    (vips_jpegload_buffer_shrink lib buf len n).trace
      = [Event.call "vips_jpegload_buffer" [("shrink", VVal.i n)]] ∧
    ([("shrink", VVal.i n)] : List VOpt).filter (fun o => o.1 == "access")
      = [] ∧
    (vips_jpegload_buffer_seq lib buf len).trace
      = [Event.call "vips_jpegload_buffer"
          [("access", VVal.i VIPS_ACCESS_SEQUENTIAL)]] :=
  ⟨rfl, rfl, rfl⟩

/-- Status code and output of `vips_flatten_0` are exactly those of the one
`vips_flatten` call it makes, with the single-element white background. -/
theorem vips_flatten_0_call (lib : VipsLib) (img : Nat) (h : Heap) :
    (vips_flatten_0 lib img h).1.status
      = (lib.flatten img [("background", VVal.arrD [255])]).1 ∧
    (vips_flatten_0 lib img h).1.out
      = (lib.flatten img [("background", VVal.arrD [255])]).2 := by
  constructor <;> (simp only [vips_flatten_0]; rw [flatten_background_eval h])

/-- C3: every shim operation returns exactly the status code of the single
wrapped-library call it makes, unchanged, for every library model and all
inputs: for each operation the returned value equals the first component of
the underlying call's response, and the trace holds exactly one call
event. -/
theorem c3_status_codes_propagated (lib : VipsLib) (img ipol : Nat)
    (sigma a b c d x y : ℚ) (buf : List Nat) (len : Nat) (fname : String)
    (n left top width height ext space strip quality ilace : Int) (h : Heap) :
    (vipsInitialize lib).1 = lib.init "govips" ∧
    (vips_gaussian_blur lib img sigma).status
      = (lib.gaussblur img sigma []).1 ∧
    ((vips_gaussian_blur lib img sigma).trace.filter Event.isCall).length
      = 1 ∧
    (vips_affine_interpolator lib img a b c d ipol).status
      = (lib.affine img a b c d [("interpolate", VVal.interp ipol)]).1 ∧
    ((vips_affine_interpolator lib img a b c d ipol).trace.filter
      Event.isCall).length = 1 ∧
    (vips_jpegload_buffer_seq lib buf len).status
      = (lib.jpegload_buffer buf len
          [("access", VVal.i VIPS_ACCESS_SEQUENTIAL)]).1 ∧
    ((vips_jpegload_buffer_seq lib buf len).trace.filter
      Event.isCall).length = 1 ∧
    (vips_magickload_ lib fname).status = (lib.magickload fname []).1 ∧
    ((vips_magickload_ lib fname).trace.filter Event.isCall).length = 1 ∧
    (vips_jpegload_buffer_shrink lib buf len n).status
      = (lib.jpegload_buffer buf len [("shrink", VVal.i n)]).1 ∧
    ((vips_jpegload_buffer_shrink lib buf len n).trace.filter
      Event.isCall).length = 1 ∧
    (vips_pngload_buffer_seq lib buf len).status
      = (lib.pngload_buffer buf len
          [("access", VVal.i VIPS_ACCESS_SEQUENTIAL)]).1 ∧
    ((vips_pngload_buffer_seq lib buf len).trace.filter
      Event.isCall).length = 1 ∧
    (vips_shrink_0 lib img x y).status = (lib.shrink img x y []).1 ∧
    ((vips_shrink_0 lib img x y).trace.filter Event.isCall).length = 1 ∧
    (vips_copy_0 lib img).status = (lib.copy img []).1 ∧
    ((vips_copy_0 lib img).trace.filter Event.isCall).length = 1 ∧
    (vips_flatten_0 lib img h).1.status
      = (lib.flatten img [("background", VVal.arrD [255])]).1 ∧
    ((vips_flatten_0 lib img h).1.trace.filter Event.isCall).length = 1 ∧
    (vips_embed_extend lib img left top width height ext).status
      = (lib.embed img left top width height [("extend", VVal.i ext)]).1 ∧
    ((vips_embed_extend lib img left top width height ext).trace.filter
      Event.isCall).length = 1 ∧
    (vips_colourspace_0 lib img space).status
      = (lib.colourspace img space []).1 ∧
    ((vips_colourspace_0 lib img space).trace.filter Event.isCall).length
      = 1 ∧
    (vips_extract_area_0 lib img left top width height).status
      = (lib.extract_area img left top width height []).1 ∧
    ((vips_extract_area_0 lib img left top width height).trace.filter
      Event.isCall).length = 1 ∧
    (vips_jpegsave_custom lib img strip quality ilace).status
      = (lib.jpegsave_buffer img
          [("strip", VVal.i strip), ("Q", VVal.i quality),
           ("optimize_coding", VVal.i TRUE),
           ("interlace", VVal.i ilace)]).1 ∧
    ((vips_jpegsave_custom lib img strip quality ilace).trace.filter
      Event.isCall).length = 1 :=
  ⟨rfl, rfl, rfl, rfl, rfl, rfl, rfl, rfl, rfl, rfl, rfl, rfl, rfl, rfl,
   rfl, rfl, rfl, (vips_flatten_0_call lib img h).1, rfl, rfl, rfl, rfl,
   rfl, rfl, rfl, rfl, rfl⟩

/-- C4: if the wrapped library writes its output parameters only on success
(the libvips convention the shim relies on), then every shim operation
writes its output parameters only on success: whenever an operation returns
a non-zero status code, its output parameter remains unwritten, since each
shim passes the output slot through to its one library call untouched. -/
theorem c4_outputs_only_on_success (lib : VipsLib)
    (hgb : ∀ i s o, (lib.gaussblur i s o).1 ≠ 0 → (lib.gaussblur i s o).2 = none)
    (haf : ∀ i a b c d o, (lib.affine i a b c d o).1 ≠ 0 → (lib.affine i a b c d o).2 = none)
    (hjl : ∀ b l o, (lib.jpegload_buffer b l o).1 ≠ 0 → (lib.jpegload_buffer b l o).2 = none)
    (hml : ∀ f o, (lib.magickload f o).1 ≠ 0 → (lib.magickload f o).2 = none)
    (hpl : ∀ b l o, (lib.pngload_buffer b l o).1 ≠ 0 → (lib.pngload_buffer b l o).2 = none)
    (hsh : ∀ i x y o, (lib.shrink i x y o).1 ≠ 0 → (lib.shrink i x y o).2 = none)
    (hcp : ∀ i o, (lib.copy i o).1 ≠ 0 → (lib.copy i o).2 = none)
    (hfl : ∀ i o, (lib.flatten i o).1 ≠ 0 → (lib.flatten i o).2 = none)
    (hem : ∀ i l t w u o, (lib.embed i l t w u o).1 ≠ 0 → (lib.embed i l t w u o).2 = none)
    (hcs : ∀ i s o, (lib.colourspace i s o).1 ≠ 0 → (lib.colourspace i s o).2 = none)
    (hea : ∀ i l t w u o, (lib.extract_area i l t w u o).1 ≠ 0 → (lib.extract_area i l t w u o).2 = none)
    (hjs : ∀ i o, (lib.jpegsave_buffer i o).1 ≠ 0 → (lib.jpegsave_buffer i o).2 = none) :
    (∀ i s, (vips_gaussian_blur lib i s).status ≠ 0 →
      (vips_gaussian_blur lib i s).out = none) ∧
    (∀ i a b c d p, (vips_affine_interpolator lib i a b c d p).status ≠ 0 →
      (vips_affine_interpolator lib i a b c d p).out = none) ∧
    (∀ b l, (vips_jpegload_buffer_seq lib b l).status ≠ 0 →
      (vips_jpegload_buffer_seq lib b l).out = none) ∧
    (∀ f, (vips_magickload_ lib f).status ≠ 0 →
      (vips_magickload_ lib f).out = none) ∧
    (∀ b l n, (vips_jpegload_buffer_shrink lib b l n).status ≠ 0 →
      (vips_jpegload_buffer_shrink lib b l n).out = none) ∧
    (∀ b l, (vips_pngload_buffer_seq lib b l).status ≠ 0 →
      (vips_pngload_buffer_seq lib b l).out = none) ∧
    (∀ i x y, (vips_shrink_0 lib i x y).status ≠ 0 →
      (vips_shrink_0 lib i x y).out = none) ∧
    (∀ i, (vips_copy_0 lib i).status ≠ 0 → (vips_copy_0 lib i).out = none) ∧
    (∀ i h, (vips_flatten_0 lib i h).1.status ≠ 0 →
      (vips_flatten_0 lib i h).1.out = none) ∧
    (∀ i l t w u e, (vips_embed_extend lib i l t w u e).status ≠ 0 →
      (vips_embed_extend lib i l t w u e).out = none) ∧
    (∀ i s, (vips_colourspace_0 lib i s).status ≠ 0 →
      (vips_colourspace_0 lib i s).out = none) ∧
    (∀ i l t w u, (vips_extract_area_0 lib i l t w u).status ≠ 0 →
      (vips_extract_area_0 lib i l t w u).out = none) ∧
    (∀ i st q il, (vips_jpegsave_custom lib i st q il).status ≠ 0 →
      (vips_jpegsave_custom lib i st q il).out = none) :=
  ⟨fun i s => hgb i s [],
   fun i a b c d p => haf i a b c d [("interpolate", VVal.interp p)],
   fun b l => hjl b l _,
   fun f => hml f [],
   fun b l n => hjl b l _,
   fun b l => hpl b l _,
   fun i x y => hsh i x y [],
   fun i => hcp i [],
   fun i h => hfl i _,
   fun i l t w u e => hem i l t w u _,
   fun i s => hcs i s [],
   fun i l t w u => hea i l t w u [],
   fun i st q il => hjs i _⟩

/-- C4 witness: instantiation at the always-failing library model (which
writes no output on its non-zero statuses) and the copy operation on image
handle 0: the output slot is unwritten. -/
theorem c4_witness : (vips_copy_0 failLib 0).out = none :=
  (c4_outputs_only_on_success failLib
    (fun _ _ _ _ => rfl) (fun _ _ _ _ _ _ _ => rfl) (fun _ _ _ _ => rfl)
    (fun _ _ _ => rfl) (fun _ _ _ _ => rfl) (fun _ _ _ _ _ => rfl)
    (fun _ _ _ => rfl) (fun _ _ _ => rfl) (fun _ _ _ _ _ _ _ => rfl)
    (fun _ _ _ _ => rfl) (fun _ _ _ _ _ _ _ => rfl)
    (fun _ _ _ => rfl)).2.2.2.2.2.2.2.1 0 (by decide)

/-- C7: the shrink, copy and colorspace shims pass an empty option list to
the wrapped library (no hidden options beyond the explicit positional
parameters), and whenever the wrapped library treats its shrink with both
factors 1, its plain copy, and its colorspace conversion to the image's own
interpretation as identities, the shims called with those no-op parameters
return the input handle with status 0. -/
theorem c7_passthrough_no_hidden_options (lib : VipsLib) (img : Nat)
    (x y : ℚ) (space : Int)
    (hs : lib.shrink img 1 1 [] = (0, some img))
    (hc : lib.copy img [] = (0, some img))
    (hcs : lib.colourspace img (lib.interpretationOf img) []
      = (0, some img)) :
    (vips_shrink_0 lib img x y).trace = [Event.call "vips_shrink" []] ∧
    (vips_copy_0 lib img).trace = [Event.call "vips_copy" []] ∧
    (vips_colourspace_0 lib img space).trace
      = [Event.call "vips_colourspace" []] ∧
    (vips_shrink_0 lib img 1 1).status = 0 ∧
    (vips_shrink_0 lib img 1 1).out = some img ∧
    (vips_copy_0 lib img).status = 0 ∧
    (vips_copy_0 lib img).out = some img ∧
    (vips_colourspace_0 lib img (lib.interpretationOf img)).status = 0 ∧
    (vips_colourspace_0 lib img (lib.interpretationOf img)).out
      = some img := by
  refine ⟨rfl, rfl, rfl, ?_, ?_, ?_, ?_, ?_, ?_⟩ <;>
    simp [vips_shrink_0, vips_copy_0, vips_colourspace_0, hs, hc, hcs]

/-- C7 witness: instantiation at the identity library model and image
handle 7: shrink with factors 1, copy, and conversion to the image's own
colorspace all return the input handle. -/
theorem c7_witness :
    (vips_shrink_0 pureLib 7 1 1).out = some 7 ∧
    (vips_copy_0 pureLib 7).out = some 7 ∧
    (vips_colourspace_0 pureLib 7 (pureLib.interpretationOf 7)).out
      = some 7 :=
  have t := c7_passthrough_no_hidden_options pureLib 7 1 1 0 rfl rfl rfl
  ⟨t.2.2.2.2.1, t.2.2.2.2.2.2.1, t.2.2.2.2.2.2.2.2⟩

/-- C8: the decode-with-shrink shim forwards the shrink factor to the
decoder as its only option; consequently, for every library model
satisfying the wrapped library's rounding law at a given buffer and factor
(decode-at-shrink-N and decode-then-shrink-by-N agree on dimensions), the
image produced by `vips_jpegload_buffer_shrink` at factor `n` has the same
dimensions as the image produced by decoding and then applying
`vips_shrink_0` with both factors `n`. -/
theorem c8_shrink_forwarded (lib : VipsLib) (buf : List Nat) (len : Nat)
    (n : Int) (h0 h1 h2 : Nat)
    (hload : lib.jpegload_buffer buf len [("shrink", VVal.i n)]
      = (0, some h1))
    (hfull : lib.jpegload_buffer buf len
      [("access", VVal.i VIPS_ACCESS_SEQUENTIAL)] = (0, some h0))
    (hshr : lib.shrink h0 (n : ℚ) (n : ℚ) [] = (0, some h2))
    (hdims : lib.dims h1 = lib.dims h2) :
    (vips_jpegload_buffer_shrink lib buf len n).trace
      = [Event.call "vips_jpegload_buffer" [("shrink", VVal.i n)]] ∧
    (vips_jpegload_buffer_shrink lib buf len n).out = some h1 ∧
    (vips_jpegload_buffer_seq lib buf len).out = some h0 ∧
    (vips_shrink_0 lib h0 (n : ℚ) (n : ℚ)).out = some h2 ∧
    (vips_jpegload_buffer_shrink lib buf len n).out.map lib.dims
      = (vips_shrink_0 lib h0 (n : ℚ) (n : ℚ)).out.map lib.dims := by
  refine ⟨rfl, ?_, ?_, ?_, ?_⟩ <;>
    simp [vips_jpegload_buffer_shrink, vips_jpegload_buffer_seq,
      vips_shrink_0, hload, hfull, hshr, hdims]

/-- C8 witness: in the dimension-tracking library model, decoding the
buffer with shrink-on-load factor 2 yields the same dimensions as decoding
it (an 8 by 8 image, handle 8) and then shrinking by 2. -/
theorem c8_witness :
    (vips_jpegload_buffer_shrink dimLib [] 0 2).out.map dimLib.dims
      = (vips_shrink_0 dimLib 8 ((2 : Int) : ℚ) ((2 : Int) : ℚ)).out.map
          dimLib.dims :=
  (c8_shrink_forwarded dimLib [] 0 2 8 4 4 (by decide) (by decide) rfl
    rfl).2.2.2.2

end VipsShim
